import Mathlib

/-!
Verification development for the zombie-ride arcade front-end.

The repository ships two versions of the Drive Mode component inside
`src/components/DriveMode.tsx` (a pseudo-3D "perspective" version, called
variant A below, and an OutRun-style "lane-space" version, called variant B
below), plus a third 2D variant at the end of `src/unnamed/part_000` that
shares variant B's collision test and tuning hash.  JavaScript numbers are
embedded as rationals (ℚ); all quantities handled by the game code stay well
inside the exactly-representable range, and none of the verified properties
depend on rounding.  Strings are embedded as Lean strings; `charCodeAt`
agrees with `Char.toNat` on the basic multilingual plane, which covers every
string the code constructs.
-/

/-- Embeds `Util.limit(val, min, max)` (variant A) and
`clamp(v, min, max)` (variant B / part_000):
`Math.max(min, Math.min(max, val))`. -/
def clampQ (v lo hi : ℚ) : ℚ := max lo (min hi v)

/-- Embeds `lerp(a, b, t) = a + (b - a) * t` from variant B. -/
def lerpQ (a b t : ℚ) : ℚ := a + (b - a) * t

/-- Embeds the JavaScript `%` operator for non-negative dividend and positive
divisor, as used by `Util.increase` and the stripe-offset update. -/
def qmod (a b : ℚ) : ℚ := a - b * ((⌊a / b⌋ : ℤ) : ℚ)

/-! ### Tuning derived from `rideName` -/

/-- Embeds `[...(name)].map((c) => c.charCodeAt(0)).reduce((a, b) => a + b, 0)`:
the sum of the character codes of the name. -/
def nameHash (s : String) : ℕ := (s.data.map (fun c => c.toNat)).sum

/-- Embeds the JavaScript fallback `rideName || "Mason"`: for strings, only
the empty string is falsy. -/
def fallbackRideName (s : String) : String := if s = "" then "Mason" else s

/-- The hash actually used by both DriveMode variants:
`nameHash` applied after the `|| "Mason"` fallback. -/
def nameHashA (s : String) : ℕ := nameHash (fallbackRideName s)

/-- Variant A: `speedMult = 0.85 + (nameHash % 30) / 100`. -/
def speedMultA (s : String) : ℚ := 17/20 + ((nameHashA s % 30 : ℕ) : ℚ) / 100

/-- Variant A: `widthMult = 0.9 + (nameHash % 20) / 100`. -/
def widthMultA (s : String) : ℚ := 9/10 + ((nameHashA s % 20 : ℕ) : ℚ) / 100

/-- Variant A: `tunedMaxSpeed = baseMaxSpeed * speedMult`, `baseMaxSpeed = 200`. -/
def tunedMaxSpeedA (s : String) : ℚ := 200 * speedMultA s

/-- Variant A: `tunedRoadWidth = baseRoadWidth * widthMult`, `baseRoadWidth = 2000`. -/
def tunedRoadWidthA (s : String) : ℚ := 2000 * widthMultA s

/-- Variant B / part_000: `speedMult = 0.9 + (nameHash % 30) / 100`. -/
def speedMultB (s : String) : ℚ := 9/10 + ((nameHashA s % 30 : ℕ) : ℚ) / 100

/-- Variant B / part_000: `tunedMaxSpeed = 220 * speedMult`. -/
def tunedMaxSpeedB (s : String) : ℚ := 220 * speedMultB s

/-! ### Collision test (variant B and part_000, identical source text) -/

/-- Embeds `rectanglesOverlap`:
`!(x1 + w1 < x2 || x2 + w2 < x1 || y1 + h1 < y2 || y2 + h2 < y1)`. -/
def rectanglesOverlap (x1 y1 w1 h1 x2 y2 w2 h2 : ℚ) : Bool :=
  !(decide (x1 + w1 < x2) || decide (x2 + w2 < x1) ||
    decide (y1 + h1 < y2) || decide (y2 + h2 < y1))

/-! ### Image uploader (`src/components/ImageUploader.tsx`) -/

/-- The part of a browser `File` the validation reads. -/
structure JsFile where
  type : String
  size : ℕ
  deriving DecidableEq

/-- Outcome of one `handleFileChange` invocation: no file selected, an inline
error message (the `onImageSelect` callback is not invoked), or the file is
forwarded to `onImageSelect`. -/
inductive UploadOutcome where
  | noFile
  | rejected (msg : String)
  | forwarded
  deriving DecidableEq

/-- Embeds `handleFileChange` from `ImageUploader.tsx` lines 12-33. -/
def handleFileChange (file : Option JsFile) : UploadOutcome :=
  match file with
  | Option.none => UploadOutcome.noFile
  | Option.some f =>
    if f.type.startsWith "image/" = false then
      UploadOutcome.rejected "Please upload a valid image file (JPG, PNG, WebP)."
    else if f.size > 5 * 1024 * 1024 then
      UploadOutcome.rejected "File size too large. Please upload an image under 5MB."
    else
      UploadOutcome.forwarded

/-! ### Score store (spec §4.6, §7; no source under src/) -/

/-- One leaderboard entry, as shaped by spec §3 / §6. -/
structure ScoreEntry where
  rideName : String
  distance : ℤ
  time : ℚ
  date : String
  deriving DecidableEq

/-- The possible states of the persisted value under the fixed storage key:
absent, present but not decodable as a leaderboard (corrupt or malformed
JSON), or decodable. -/
inductive StoredValue where
  | missing
  | malformed (raw : String)
  | wellFormed (entries : List ScoreEntry)
  deriving DecidableEq

/-- Modelled from the spec: the repository has no Score Store source under
`src/` (spec §4.6 and §7 describe it).  `load()` reads the durable key-value
store and, "on read failure (corrupt/missing data) returns an empty
leaderboard rather than failing the caller". -/
def loadLeaderboard : StoredValue → List ScoreEntry
  | StoredValue.missing => []
  | StoredValue.malformed _ => []
  | StoredValue.wellFormed es => es

/-- Modelled from the spec: `load()` viewed with an explicit error channel;
it always succeeds, so no exception ever propagates to the caller. -/
def loadLeaderboardE (v : StoredValue) : Except String (List ScoreEntry) :=
  Except.ok (loadLeaderboard v)

/-! ## Theorems for the early claims -/

/-- C2 (amended): the collision test reports overlap iff the closed
rectangles intersect on both axes — `x2 ≤ x1 + w1 ∧ x1 ≤ x2 + w2` and
likewise in `y`.  In particular overlap on both axes is required, but edge
contact counts as overlap. -/
theorem rectanglesOverlap_iff_closed (x1 y1 w1 h1 x2 y2 w2 h2 : ℚ) :
    rectanglesOverlap x1 y1 w1 h1 x2 y2 w2 h2 = true ↔
      (x2 ≤ x1 + w1 ∧ x1 ≤ x2 + w2 ∧ y2 ≤ y1 + h1 ∧ y1 ≤ y2 + h2) := by
  simp [rectanglesOverlap, not_lt, and_assoc]

/-- C2 (counterexample): two rectangles that merely touch at an edge
(`x1 + w1 = x2`, zero-width intersection) are reported as OVERLAPPING by the
code, contradicting the claim that they are reported as non-overlapping. -/
theorem rectanglesOverlap_touching_true :
    rectanglesOverlap 0 0 1 1 1 0 1 1 = true := by
  norm_num [rectanglesOverlap]

/-- C6: the Score Store's `load()` returns the empty leaderboard for a
missing or malformed stored value, and it never surfaces a failure: for
every stored value it produces `Except.ok`. -/
theorem load_never_fails :
    (∀ v : StoredValue, ∃ l : List ScoreEntry, loadLeaderboardE v = Except.ok l)
    ∧ (∀ raw : String, loadLeaderboard (StoredValue.malformed raw) = [])
    ∧ loadLeaderboard StoredValue.missing = [] :=
  ⟨fun v => ⟨loadLeaderboard v, rfl⟩, fun _ => rfl, rfl⟩

/-- C8: the tuning derived from `rideName` is a pure function of the
character-code hash — equal hashes give identical multipliers and identical
tuned constants — and the multipliers are bounded:
`speedMult ∈ [0.85, 1.15)` and `widthMult ∈ [0.9, 1.1)`. -/
theorem tuning_deterministic_bounded (n1 n2 : String)
    (h : nameHashA n1 = nameHashA n2) :
    (speedMultA n1 = speedMultA n2 ∧ widthMultA n1 = widthMultA n2 ∧
      tunedMaxSpeedA n1 = tunedMaxSpeedA n2 ∧ tunedRoadWidthA n1 = tunedRoadWidthA n2)
    ∧ (17/20 ≤ speedMultA n1 ∧ speedMultA n1 < 23/20)
    ∧ (9/10 ≤ widthMultA n1 ∧ widthMultA n1 < 11/10) := by
  have h30 : nameHashA n1 % 30 < 30 := Nat.mod_lt _ (by norm_num)
  have h20 : nameHashA n1 % 20 < 20 := Nat.mod_lt _ (by norm_num)
  have c30 : ((nameHashA n1 % 30 : ℕ) : ℚ) < 30 := by exact_mod_cast h30
  have c20 : ((nameHashA n1 % 20 : ℕ) : ℚ) < 20 := by exact_mod_cast h20
  have p30 : (0 : ℚ) ≤ ((nameHashA n1 % 30 : ℕ) : ℚ) := by positivity
  have p20 : (0 : ℚ) ≤ ((nameHashA n1 % 20 : ℕ) : ℚ) := by positivity
  refine ⟨⟨?_, ?_, ?_, ?_⟩, ⟨?_, ?_⟩, ⟨?_, ?_⟩⟩
  · unfold speedMultA; rw [h]
  · unfold widthMultA; rw [h]
  · unfold tunedMaxSpeedA speedMultA; rw [h]
  · unfold tunedRoadWidthA widthMultA; rw [h]
  · unfold speedMultA; linarith
  · unfold speedMultA; linarith
  · unfold widthMultA; linarith
  · unfold widthMultA; linarith

/-- C8 (witness): the determinism-and-bounds theorem applied to the concrete
name "Mason" on both sides. -/
theorem tuning_deterministic_bounded_witness :
    (speedMultA "Mason" = speedMultA "Mason" ∧ widthMultA "Mason" = widthMultA "Mason" ∧
      tunedMaxSpeedA "Mason" = tunedMaxSpeedA "Mason" ∧
      tunedRoadWidthA "Mason" = tunedRoadWidthA "Mason")
    ∧ (17/20 ≤ speedMultA "Mason" ∧ speedMultA "Mason" < 23/20)
    ∧ (9/10 ≤ widthMultA "Mason" ∧ widthMultA "Mason" < 11/10) :=
  tuning_deterministic_bounded "Mason" "Mason" rfl

/-- C9: the uploader forwards a file to `onImageSelect` iff its MIME type
starts with `image/` and its size is at most 5 MiB (5·1024·1024 bytes); a
non-image type is rejected with the type-specific message, an oversized image
with the size-specific message, and a rejected file is never forwarded. -/
theorem uploader_validation (f : JsFile) :
    (handleFileChange (Option.some f) = UploadOutcome.forwarded ↔
      (f.type.startsWith "image/" = true ∧ f.size ≤ 5 * 1024 * 1024))
    ∧ (handleFileChange (Option.some f) =
        UploadOutcome.rejected "Please upload a valid image file (JPG, PNG, WebP)." ↔
      f.type.startsWith "image/" = false)
    ∧ (handleFileChange (Option.some f) =
        UploadOutcome.rejected "File size too large. Please upload an image under 5MB." ↔
      (f.type.startsWith "image/" = true ∧ 5 * 1024 * 1024 < f.size))
    ∧ handleFileChange Option.none = UploadOutcome.noFile := by
  refine ⟨?_, ?_, ?_, rfl⟩ <;>
    · simp only [handleFileChange]
      split_ifs with h1 h2 <;> simp_all [not_lt]

/-- C10: an empty `rideName` falls back to the literal `"Mason"`, so it
yields exactly the same tuned maxSpeed and road-width multipliers as
`rideName = "Mason"`, in both DriveMode variants. -/
theorem empty_name_falls_back_to_Mason :
    fallbackRideName "" = "Mason"
    ∧ tunedMaxSpeedA "" = tunedMaxSpeedA "Mason"
    ∧ tunedRoadWidthA "" = tunedRoadWidthA "Mason"
    ∧ tunedMaxSpeedB "" = tunedMaxSpeedB "Mason" := by
  refine ⟨rfl, ?_, ?_, ?_⟩ <;> rfl

/-! ## Variant A: the perspective DriveMode (DriveMode.tsx lines 1-544)

One tick of its `update(dt)`.  The input of a tick bundles the frame delta,
the two logical steer signals (keyboard or touch), and the two
`Math.random()` draws the spawner would consume on this tick. -/

/-- A variant-A obstacle: `{ offsetZ, x }` (depth ahead of the player and
lateral position in `[-1, 1)`). -/
structure ZombieA where
  offsetZ : ℚ
  x : ℚ
  deriving DecidableEq

/-- Per-tick input for variant A. -/
structure InputA where
  dt : ℚ
  left : Bool
  right : Bool
  r1 : ℚ
  r2 : ℚ
  deriving DecidableEq

/-- Accumulator for the mutations the `zombies.filter` callback performs on
the surrounding locals (`healthVal`, `scoreVal`, `gameRunning`, React
`gameOver`) plus the zombies it keeps. -/
structure FilterAccA where
  healthVal : ℚ
  scoreVal : ℚ
  gameRunning : Bool
  gameOver : Bool
  kept : List ZombieA
  deriving DecidableEq

/-- The variant-A game state touched by `update`. -/
structure StateA where
  position : ℚ
  playerX : ℚ
  speedVal : ℚ
  healthVal : ℚ
  scoreVal : ℚ
  lastSpawn : ℚ
  spawnRate : ℚ
  gameRunning : Bool
  gameOver : Bool
  zombies : List ZombieA
  deriving DecidableEq

/-- Embeds the `zombies.filter` callback of variant A (lines 233-248):
move the zombie by `dt * speedVal`; drop it silently once `offsetZ < 0`;
on `offsetZ < cameraHeight(=1000) ∧ |z.x - playerX| < 0.3` subtract 20
health, add 10 score, end the run when health ≤ 0, and drop the zombie;
otherwise keep it. -/
def zombieFilterA (dt v px : ℚ) (acc : FilterAccA) (z : ZombieA) : FilterAccA :=
  let oz := z.offsetZ - dt * v
  if oz < 0 then acc
  else if oz < 1000 ∧ |z.x - px| < 3/10 then
    let h := acc.healthVal - 20
    let sc := acc.scoreVal + 10
    if h ≤ 0 then
      { acc with healthVal := h, scoreVal := sc, gameRunning := false, gameOver := true }
    else
      { acc with healthVal := h, scoreVal := sc }
  else
    { acc with kept := acc.kept ++ [{ z with offsetZ := oz }] }

/-- Embeds variant A's steering step size
`dx = dt * 4 * (speedVal / maxSpeed || 1)` (line 221): the JavaScript `||`
replaces a zero speed fraction by 1. -/
def steerDxA (mx dt v : ℚ) : ℚ := dt * 4 * (if v / mx = 0 then 1 else v / mx)

/-- Embeds one call of variant A's `update(dt)` (lines 197-255), with the
audio block (external collaborator) elided: accelerate and clamp speed;
advance `position` modulo the track length `500 * 200`; apply steering and
clamp `playerX` to `[-2, 2]`; run the spawn timer (`lastSpawn > spawnRate`
spawns at `offsetZ = 50 + r1*300`, `x = (r2 - 0.5)*2` and eases `spawnRate`
toward the 0.3 floor); filter the zombies; add the passive
`dt * speedVal / 10` score. -/
def updateA (mx : ℚ) (s : StateA) (i : InputA) : StateA :=
  if s.gameRunning then
    let v := clampQ (s.speedVal + 100 * i.dt) 0 mx
    let pos := qmod (s.position + i.dt * v) 100000
    let dx := steerDxA mx i.dt v
    let px1 := if i.left then s.playerX - dx else s.playerX
    let px2 := if i.right then px1 + dx else px1
    let px := clampQ px2 (-2) 2
    let ls := s.lastSpawn + i.dt
    let zs := if ls > s.spawnRate then
        s.zombies ++ [⟨50 + i.r1 * 300, (i.r2 - 1/2) * 2⟩] else s.zombies
    let ls2 : ℚ := if ls > s.spawnRate then 0 else ls
    let rate := if ls > s.spawnRate then max (3/10) (s.spawnRate - 1/1000) else s.spawnRate
    let acc := zs.foldl (zombieFilterA i.dt v px)
      ⟨s.healthVal, s.scoreVal, s.gameRunning, s.gameOver, []⟩
    { position := pos, playerX := px, speedVal := v,
      healthVal := acc.healthVal, scoreVal := acc.scoreVal + i.dt * v / 10,
      lastSpawn := ls2, spawnRate := rate,
      gameRunning := acc.gameRunning, gameOver := acc.gameOver, zombies := acc.kept }
  else s

/-- Variant A's initial game state (lines 72-83). -/
def initA : StateA := ⟨0, 0, 0, 100, 0, 0, 3/2, true, false, []⟩

/-- A whole variant-A run: fold `update` over a list of per-tick inputs. -/
def runA (mx : ℚ) (l : List InputA) : StateA := l.foldl (updateA mx) initA

/-! ### A concrete variant-A run driving health below zero

Four ticks of `dt = 1.6` each spawn a zombie straight ahead that is hit on
its own spawn tick (health 100 → 20); two small steering ticks move the
player to `x = 0.9`; a waiting tick and a spawn tick put a zombie at
`x = 0.5` without touching it; after one more waiting tick, the final tick
spawns a second zombie at `x = 0.6` and steers to `x = 0.7`, so BOTH
zombies hit in the same tick: 20 → 0 (run ends) → -20. -/

def iHit : InputA := ⟨8/5, false, false, 5/6, 1/2⟩

def iSteer : InputA := ⟨9/80, false, true, 0, 0⟩

def iWait : InputA := ⟨6/5, false, false, 0, 0⟩

def iSpawnFar : InputA := ⟨3/40, false, false, 9/10, 3/4⟩

def iWait2 : InputA := ⟨29/20, false, false, 0, 0⟩

def iFinal : InputA := ⟨1/20, true, false, 9/10, 4/5⟩

def iDodge : InputA := ⟨8/5, false, false, 0, 3/4⟩

def traceA9 : List InputA := [iHit, iHit, iHit, iHit, iSteer, iSteer, iWait, iSpawnFar, iWait2]

/-- The state after the nine preparation ticks. -/
def sA9 : StateA := runA 170 traceA9

/-- The state after the terminal tick. -/
def sA10 : StateA := updateA 170 sA9 iFinal

def sA1 : StateA := ⟨256, 0, 160, 80, 178/5, 0, 1499/1000, true, false, []⟩

def sA2 : StateA := ⟨528, 0, 170, 60, 364/5, 0, 749/500, true, false, []⟩

def sA3 : StateA := ⟨800, 0, 170, 40, 110, 0, 1497/1000, true, false, []⟩

def sA4 : StateA := ⟨1072, 0, 170, 20, 736/5, 0, 187/125, true, false, []⟩

def sA5 : StateA := ⟨8729/8, 9/20, 170, 20, 11929/80, 9/80, 187/125, true, false, []⟩

def sA6 : StateA := ⟨4441/4, 9/10, 170, 20, 6041/40, 9/40, 187/125, true, false, []⟩

def sA7 : StateA := ⟨5257/4, 9/10, 170, 20, 6857/40, 57/40, 187/125, true, false, []⟩

def sA8 : StateA := ⟨1327, 9/10, 170, 20, 1727/10, 0, 299/200, true, false, [⟨1229/4, 1/2⟩]⟩

def sA9lit : StateA := ⟨3147/2, 9/10, 170, 20, 3947/20, 29/20, 299/200, true, false, [⟨243/4, 1/2⟩]⟩

def sA10lit : StateA := ⟨1582, 7/10, 170, -20, 1091/5, 0, 747/500, false, true, []⟩

/-- For non-negative values below the modulus, the JavaScript `%` is the
identity. -/
lemma qmod_eq_self (a b : ℚ) (h0 : 0 ≤ a) (h1 : a < b) : qmod a b = a := by
  have hb : 0 < b := lt_of_le_of_lt h0 h1
  have hf : ⌊a / b⌋ = 0 := by
    rw [Int.floor_eq_zero_iff]
    exact ⟨by positivity, (div_lt_one hb).mpr h1⟩
  unfold qmod
  rw [hf]
  push_cast
  ring

lemma stepA1 : updateA 170 initA iHit = sA1 := by
  norm_num [updateA, zombieFilterA, steerDxA, clampQ, qmod_eq_self, abs_lt,
    max_def, min_def, initA, iHit, sA1]

lemma stepA2 : updateA 170 sA1 iHit = sA2 := by
  norm_num [updateA, zombieFilterA, steerDxA, clampQ, qmod_eq_self, abs_lt,
    max_def, min_def, sA1, iHit, sA2]

lemma stepA3 : updateA 170 sA2 iHit = sA3 := by
  norm_num [updateA, zombieFilterA, steerDxA, clampQ, qmod_eq_self, abs_lt,
    max_def, min_def, sA2, iHit, sA3]

lemma stepA4 : updateA 170 sA3 iHit = sA4 := by
  norm_num [updateA, zombieFilterA, steerDxA, clampQ, qmod_eq_self, abs_lt,
    max_def, min_def, sA3, iHit, sA4]

lemma stepA5 : updateA 170 sA4 iSteer = sA5 := by
  norm_num [updateA, zombieFilterA, steerDxA, clampQ, qmod_eq_self, abs_lt,
    max_def, min_def, sA4, iSteer, sA5]

lemma stepA6 : updateA 170 sA5 iSteer = sA6 := by
  norm_num [updateA, zombieFilterA, steerDxA, clampQ, qmod_eq_self, abs_lt,
    max_def, min_def, sA5, iSteer, sA6]

lemma stepA7 : updateA 170 sA6 iWait = sA7 := by
  norm_num [updateA, zombieFilterA, steerDxA, clampQ, qmod_eq_self, abs_lt,
    max_def, min_def, sA6, iWait, sA7]

lemma stepA8 : updateA 170 sA7 iSpawnFar = sA8 := by
  norm_num [updateA, zombieFilterA, steerDxA, clampQ, qmod_eq_self, abs_lt,
    max_def, min_def, sA7, iSpawnFar, sA8]

lemma stepA9 : updateA 170 sA8 iWait2 = sA9lit := by
  norm_num [updateA, zombieFilterA, steerDxA, clampQ, qmod_eq_self, abs_lt,
    max_def, min_def, sA8, iWait2, sA9lit]

lemma sA9_eval : sA9 = sA9lit := by
  show List.foldl (updateA 170) initA traceA9 = sA9lit
  simp only [traceA9, List.foldl_cons, List.foldl_nil]
  rw [stepA1, stepA2, stepA3, stepA4, stepA5, stepA6, stepA7, stepA8, stepA9]

lemma sA10_eval : sA10 = sA10lit := by
  show updateA 170 sA9 iFinal = sA10lit
  rw [sA9_eval]
  norm_num [updateA, zombieFilterA, steerDxA, clampQ, qmod_eq_self, abs_lt,
    max_def, min_def, sA9lit, iFinal, sA10lit]

/-- The "Mason" tuning of variant A: hash 510, `510 % 30 = 0`, so
`tunedMaxSpeed = 200 * 0.85 = 170`. -/
lemma tunedMaxSpeedA_Mason : tunedMaxSpeedA "Mason" = 170 := by
  have h : nameHashA "Mason" = 510 := by decide
  norm_num [tunedMaxSpeedA, speedMultA, h]

/-- C1 (counterexample): with the tuning of `rideName = "Mason"`
(`maxSpeed = 170`), the ten-tick run `sA10` of the perspective variant ends
with `healthVal = -20 < 0`: two obstacles collide in the terminal tick and
each subtracts 20 with no lower clamp, so health does NOT stay in [0,100]. -/
theorem healthA_goes_negative :
    tunedMaxSpeedA "Mason" = 170 ∧ sA10.healthVal = -20 ∧ sA10.healthVal < 0 := by
  refine ⟨tunedMaxSpeedA_Mason, ?_, ?_⟩ <;> rw [sA10_eval] <;> norm_num [sA10lit]

/-- C3 (counterexample): in the terminal tick of the run above, health
reaches the floor at the FIRST collision (20 → 0, `gameRunning` flips,
`gameOver` is set), yet the second obstacle of the same tick still moves and
still hits (health −20, +10 score) and the passive term
`dt * speedVal / 10 = 0.05 * 170 / 10 = 0.85` is still added: the score
grows by `10 + 10 + 0.85` although the transition happened mid-tick. -/
theorem terminal_tick_still_scores :
    sA9.healthVal = 20 ∧ sA9.gameRunning = true
    ∧ sA10.gameRunning = false ∧ sA10.gameOver = true
    ∧ sA10.healthVal = -20
    ∧ sA10.scoreVal = sA9.scoreVal + 20 + 17/20 := by
  simp only [sA9_eval, sA10_eval, sA9lit, sA10lit]
  norm_num

/-- C4 (counterexample): in the perspective variant, the zombie spawned at
`offsetZ = 50` crosses the player's plane on its spawn tick
(`50 - 1.6·160 < 0`) and is removed WITHOUT any score award: the obstacle
list is empty afterwards, no collision happened (health still 100), and the
final score equals exactly the passive `dt * speedVal / 10` term, so the
dodge contributed nothing. -/
theorem dodgeA_awards_no_score :
    (updateA 170 initA iDodge).zombies = [] ∧ (updateA 170 initA iDodge).healthVal = 100
    ∧ (updateA 170 initA iDodge).scoreVal = iDodge.dt * (updateA 170 initA iDodge).speedVal / 10 := by
  have h : updateA 170 initA iDodge = ⟨256, 0, 160, 100, 128/5, 0, 1499/1000, true, false, []⟩ := by
    norm_num [updateA, zombieFilterA, steerDxA, clampQ, qmod_eq_self, abs_lt,
      max_def, min_def, initA, iDodge]
  rw [h]
  norm_num [iDodge]

/-- C7 (counterexample): in the perspective variant a zombie spawns at
`offsetZ = 50 + r1·300 = 300`, which is already inside the collidable band
(`offsetZ < cameraHeight = 1000`), and it collides with the player on the
very tick it spawns: starting from the initial state, one tick takes health
from 100 to 80 and leaves the obstacle list empty. -/
theorem spawnA_collides_on_spawn_tick :
    initA.zombies = [] ∧ initA.healthVal = 100
    ∧ (updateA 170 initA iHit).healthVal = 80
    ∧ (updateA 170 initA iHit).zombies = [] := by
  rw [stepA1]
  norm_num [initA, sA1]

/-! ## Variant B: the lane-space DriveMode (DriveMode.tsx lines 545-1054)

Zombies live in lane space `[-1, 1]` with a screen `y`; the car moves in
screen pixels.  `W` and `H` are the canvas client width and height. -/

/-- A variant-B obstacle: `{ lane, y, size, speed }`. -/
structure ZombieB where
  lane : ℚ
  y : ℚ
  size : ℚ
  speed : ℚ
  deriving DecidableEq

/-- Per-tick input for variant B; `r1 r2 r3` are the spawner's three
`Math.random()` draws (lane, size, speed). -/
structure InputB where
  dt : ℚ
  left : Bool
  right : Bool
  r1 : ℚ
  r2 : ℚ
  r3 : ℚ
  deriving DecidableEq

/-- Accumulator for the mutations of variant B's `zombies.filter` callback. -/
structure FilterAccB where
  healthVal : ℚ
  scoreVal : ℚ
  gameRunning : Bool
  gameOver : Bool
  kept : List ZombieB
  deriving DecidableEq

/-- The variant-B game state touched by `update`. -/
structure StateB where
  speedVal : ℚ
  carX : ℚ
  laneStripeOffset : ℚ
  healthVal : ℚ
  scoreVal : ℚ
  spawnTimer : ℚ
  spawnInterval : ℚ
  gameRunning : Bool
  gameOver : Bool
  zombies : List ZombieB
  deriving DecidableEq

/-- Embeds `zombieScreenX(lane, y, size)` (lines 691-698): interpolate the
road half-width between `roadTopWidth/2 = 0.1·W` at the horizon
(`roadTopY = 0.38·H`) and `roadBottomWidth/2 = 0.475·W` at the bottom, then
map lane `[-1, 1]` across the road. -/
def zombieScreenX (W H lane y size : ℚ) : ℚ :=
  let t := clampQ ((y - H * (38/100)) / (H - H * (38/100))) 0 1
  let halfW := lerpQ (W * (2/10) / 2) (W * (95/100) / 2) t
  let leftEdge := W / 2 - halfW
  let rightEdge := W / 2 + halfW
  leftEdge + ((lane + 1) / 2) * (rightEdge - leftEdge) - size / 2

/-- The zombie `y` after this tick's movement
`z.y += z.speed * dt + (speedVal / maxSpeed) * 80 * dt` (line 791). -/
def yAfterB (mx dt v : ℚ) (z : ZombieB) : ℚ := z.y + z.speed * dt + v / mx * 80 * dt

/-- The per-zombie collision test of variant B (lines 796-805): AABB between
the car rectangle (`carX`, `carY = 0.7·H`, `carWidth = 0.12·W`,
`carHeight = 1.4·carWidth`) and the zombie's screen square after movement. -/
def carHitB (W H mx dt v cx : ℚ) (z : ZombieB) : Bool :=
  rectanglesOverlap cx (H * (7/10)) (W * (12/100)) (W * (12/100) * (14/10))
    (zombieScreenX W H z.lane (yAfterB mx dt v z) z.size) (yAfterB mx dt v z) z.size z.size

/-- Embeds variant B's `zombies.filter` callback (lines 790-825): on a hit,
subtract 25 health, clamp to 0 (ending the run at the floor), and drop the
zombie without score; once `y > height + size`, drop it and add 25 score;
otherwise keep it with the updated `y`. -/
def zombieFilterB (W H mx dt v cx : ℚ) (acc : FilterAccB) (z : ZombieB) : FilterAccB :=
  if carHitB W H mx dt v cx z then
    let h := acc.healthVal - 25
    if h ≤ 0 then
      { acc with healthVal := 0, gameRunning := false, gameOver := true }
    else
      { acc with healthVal := h }
  else if yAfterB mx dt v z > H + z.size then
    { acc with scoreVal := acc.scoreVal + 25 }
  else
    { acc with kept := acc.kept ++ [{ z with y := yAfterB mx dt v z }] }

/-- Embeds `steering = (speedVal / maxSpeed) * 260` (line 758): the lateral
speed in px/sec, proportional to the current speed fraction. -/
def steeringB (mx v : ℚ) : ℚ := v / mx * 260

/-- The interpolated road half-width at the car's row
(lines 767-768): `lerp(roadTopWidth/2, roadBottomWidth/2, tCar)` with
`tCar = clamp((carY - roadTopY)/(roadBottomY - roadTopY), 0, 1)`. -/
def halfWCarB (W H : ℚ) : ℚ :=
  lerpQ (W * (2/10) / 2) (W * (95/100) / 2)
    (clampQ ((H * (7/10) - H * (38/100)) / (H - H * (38/100))) 0 1)

/-- The lower clamp bound for `carX` (line 773): `leftEdgeCar + 10`. -/
def carMinXB (W H : ℚ) : ℚ := (W / 2 - halfWCarB W H) + 10

/-- The upper clamp bound for `carX` (line 774):
`rightEdgeCar - carWidth - 10`. -/
def carMaxXB (W H : ℚ) : ℚ := (W / 2 + halfWCarB W H) - W * (12/100) - 10

/-- Embeds `spawnZombie` of variant B (lines 700-709): lane
`-0.8 + r1·1.6`, size `30 + r2·25`, start `y = roadTopY - size - 20` (just
above the horizon), own speed `90 + r3·80`. -/
def spawnZombieB (H r1 r2 r3 : ℚ) : ZombieB :=
  ⟨-(8/10) + r1 * (16/10), H * (38/100) - (30 + r2 * 25) - 20, 30 + r2 * 25, 90 + r3 * 80⟩

/-- Embeds one call of variant B's `update(dt)` (lines 738-834), audio
elided: accelerate and clamp speed; steer by `steering * dt` and clamp
`carX` to the road bounds; scroll the stripe phase mod 1; run the spawn
timer (`spawnTimer ≥ spawnInterval` spawns and clamps the interval into
`[0.45, 2]`); filter the zombies; add the passive `dt * speedVal / 12`
score. -/
def updateB (W H mx : ℚ) (s : StateB) (j : InputB) : StateB :=
  if s.gameRunning then
    let v := clampQ (s.speedVal + 180 * j.dt) 0 mx
    let cx1 := if j.left then s.carX - steeringB mx v * j.dt else s.carX
    let cx2 := if j.right then cx1 + steeringB mx v * j.dt else cx1
    let cx := clampQ cx2 (carMinXB W H) (carMaxXB W H)
    let lso := qmod (s.laneStripeOffset + j.dt * (v / mx) * (14/10)) 1
    let st := s.spawnTimer + j.dt
    let zs := if st ≥ s.spawnInterval then
        s.zombies ++ [spawnZombieB H j.r1 j.r2 j.r3] else s.zombies
    let st2 : ℚ := if st ≥ s.spawnInterval then 0 else st
    let si := if st ≥ s.spawnInterval then
        clampQ (s.spawnInterval - 1/50) (45/100) 2 else s.spawnInterval
    let acc := zs.foldl (zombieFilterB W H mx j.dt v cx)
      ⟨s.healthVal, s.scoreVal, s.gameRunning, s.gameOver, []⟩
    { speedVal := v, carX := cx, laneStripeOffset := lso,
      healthVal := acc.healthVal, scoreVal := acc.scoreVal + j.dt * v / 12,
      spawnTimer := st2, spawnInterval := si,
      gameRunning := acc.gameRunning, gameOver := acc.gameOver, zombies := acc.kept }
  else s

/-- Variant B's initial game state (lines 622-654). -/
def initB (W : ℚ) : StateB :=
  ⟨0, W / 2 - W * (12/100) / 2, 0, 100, 0, 0, 1, true, false, []⟩

/-- A whole variant-B run: fold `update` over a list of per-tick inputs. -/
def runB (W H mx : ℚ) (l : List InputB) : StateB := l.foldl (updateB W H mx) (initB W)

/-! ### Health invariant of variant B -/

lemma zombieFilterB_health (W H mx dt v cx : ℚ) (acc : FilterAccB) (z : ZombieB)
    (h0 : 0 ≤ acc.healthVal) (h1 : acc.healthVal ≤ 100) :
    0 ≤ (zombieFilterB W H mx dt v cx acc z).healthVal ∧
      (zombieFilterB W H mx dt v cx acc z).healthVal ≤ 100 := by
  simp only [zombieFilterB]
  split_ifs with hhit hle hpass
  · exact ⟨le_refl 0, by norm_num⟩
  · constructor
    · dsimp only
      linarith [not_le.mp hle]
    · dsimp only
      linarith
  · exact ⟨h0, h1⟩
  · exact ⟨h0, h1⟩

lemma foldlB_health (W H mx dt v cx : ℚ) (zs : List ZombieB) :
    ∀ acc : FilterAccB, 0 ≤ acc.healthVal → acc.healthVal ≤ 100 →
      0 ≤ (zs.foldl (zombieFilterB W H mx dt v cx) acc).healthVal ∧
        (zs.foldl (zombieFilterB W H mx dt v cx) acc).healthVal ≤ 100 := by
  induction zs with
  | nil => intro acc h0 h1; exact ⟨h0, h1⟩
  | cons z t ih =>
    intro acc h0 h1
    rw [List.foldl_cons]
    have hz := zombieFilterB_health W H mx dt v cx acc z h0 h1
    exact ih _ hz.1 hz.2

lemma updateB_health (W H mx : ℚ) (s : StateB) (j : InputB)
    (h0 : 0 ≤ s.healthVal) (h1 : s.healthVal ≤ 100) :
    0 ≤ (updateB W H mx s j).healthVal ∧ (updateB W H mx s j).healthVal ≤ 100 := by
  unfold updateB
  split
  · exact foldlB_health W H mx _ _ _ _ _ h0 h1
  · exact ⟨h0, h1⟩

lemma runB_health (W H mx : ℚ) (l : List InputB) :
    ∀ s : StateB, 0 ≤ s.healthVal → s.healthVal ≤ 100 →
      0 ≤ (l.foldl (updateB W H mx) s).healthVal ∧
        (l.foldl (updateB W H mx) s).healthVal ≤ 100 := by
  induction l with
  | nil => intro s h0 h1; exact ⟨h0, h1⟩
  | cons j t ih =>
    intro s h0 h1
    rw [List.foldl_cons]
    have hs := updateB_health W H mx s j h0 h1
    exact ih _ hs.1 hs.2

/-- C1 (amended): in the lane-space variant, health starts at 100 and — for
every canvas size, max speed, and sequence of ticks with arbitrary `dt`,
input signals, and spawner randomness — stays in `[0, 100]`: each collision
subtracts 25 and the result is clamped at 0. -/
theorem healthB_in_range (W H mx : ℚ) (l : List InputB) :
    (initB W).healthVal = 100
    ∧ 0 ≤ (runB W H mx l).healthVal ∧ (runB W H mx l).healthVal ≤ 100 := by
  refine ⟨rfl, ?_⟩
  exact runB_health W H mx l (initB W) (by norm_num [initB]) (by norm_num [initB])

/-! ### Finished runs are inert -/

/-- A finished variant-A state. -/
def deadA : StateA := ⟨0, 0, 0, 0, 0, 0, 3/2, false, true, []⟩

/-- A finished variant-B state. -/
def deadB : StateB := ⟨0, 140, 0, 0, 0, 0, 1, false, true, []⟩

/-- C3 (amended): once `gameRunning` is false, `update` is a no-op in both
variants — no obstacle moves and no score accrues on any later tick.  (The
terminal tick itself is NOT inert: see the counterexample.) -/
theorem finished_update_noop (mx W H : ℚ) (s : StateA) (i : InputA)
    (t : StateB) (j : InputB)
    (hs : s.gameRunning = false) (ht : t.gameRunning = false) :
    updateA mx s i = s ∧ updateB W H mx t j = t := by
  constructor
  · simp [updateA, hs]
  · simp [updateB, ht]

/-- C3 (witness): the no-op theorem applied to concrete finished states. -/
theorem finished_update_noop_witness :
    updateA 170 deadA ⟨1, false, false, 0, 0⟩ = deadA
    ∧ updateB 320 480 220 deadB ⟨1, false, false, 0, 0, 0⟩ = deadB :=
  finished_update_noop 170 320 480 deadA ⟨1, false, false, 0, 0⟩ deadB
    ⟨1, false, false, 0, 0, 0⟩ rfl rfl

/-! ### Per-obstacle semantics of the variant-B filter -/

/-- C4 (amended): in the lane-space variant, each obstacle is processed as
follows — on a collision it is removed, 25 damage is applied (clamped at 0,
ending the run at the floor) and NO score is awarded; an obstacle that has
fully passed the bottom edge (`y > height + size`) without colliding is
removed and awards exactly 25 points; otherwise it is kept with its moved
`y`.  An obstacle is removed iff it collided or passed the bottom edge. -/
theorem zombieStep_semantics (W H mx dt v cx : ℚ) (acc : FilterAccB) (z : ZombieB) :
    ((zombieFilterB W H mx dt v cx acc z).healthVal =
      (if carHitB W H mx dt v cx z then
        (if acc.healthVal - 25 ≤ 0 then 0 else acc.healthVal - 25) else acc.healthVal))
    ∧ ((zombieFilterB W H mx dt v cx acc z).scoreVal =
      (if carHitB W H mx dt v cx z then acc.scoreVal
       else if yAfterB mx dt v z > H + z.size then acc.scoreVal + 25 else acc.scoreVal))
    ∧ ((zombieFilterB W H mx dt v cx acc z).kept =
      (if carHitB W H mx dt v cx z then acc.kept
       else if yAfterB mx dt v z > H + z.size then acc.kept
       else acc.kept ++ [{ z with y := yAfterB mx dt v z }]))
    ∧ ((zombieFilterB W H mx dt v cx acc z).kept = acc.kept ↔
      (carHitB W H mx dt v cx z = true ∨ yAfterB mx dt v z > H + z.size))
    ∧ ((zombieFilterB W H mx dt v cx acc z).gameRunning =
      (if carHitB W H mx dt v cx z then
        (if acc.healthVal - 25 ≤ 0 then false else acc.gameRunning)
       else acc.gameRunning)) := by
  simp only [zombieFilterB]
  split_ifs with hhit hle hpass <;> simp_all

/-! ### Steering authority and lateral clamping -/

lemma clampQ_mem (v lo hi : ℚ) (h : lo ≤ hi) :
    lo ≤ clampQ v lo hi ∧ clampQ v lo hi ≤ hi :=
  ⟨le_max_left lo (min hi v), max_le h (min_le_left hi v)⟩

lemma updateB_carX_clamped (W H mx : ℚ) (t : StateB) (j : InputB)
    (ht : t.gameRunning = true) :
    ∃ c : ℚ, (updateB W H mx t j).carX = clampQ c (carMinXB W H) (carMaxXB W H) := by
  unfold updateB
  split
  · exact ⟨_, rfl⟩
  · rename_i h
    exact absurd ht h

/-- C5: steering authority scales with the current speed fraction.  In the
perspective variant, whenever the previous speed and `dt` are non-negative
(as on every reachable tick), the steering step equals
`dt * 4 * (speed / maxSpeed)` — the `|| 1` fallback never fires with a
nonzero effect, so zero speed gives zero lateral movement.  In the
lane-space variant the lateral speed is `(v / maxSpeed) * 260`: it is 0 at
speed 0 and monotone in the speed, and the resulting `carX` is clamped into
the road bounds on every running tick. -/
theorem steering_speed_scaled (mx W H v1 v2 : ℚ) (s : StateA) (i : InputA)
    (t : StateB) (j : InputB)
    (hmx : 0 < mx) (hs : 0 ≤ s.speedVal) (hdt : 0 ≤ i.dt)
    (hv12 : v1 ≤ v2)
    (ht : t.gameRunning = true) (hWH : carMinXB W H ≤ carMaxXB W H) :
    steerDxA mx i.dt (clampQ (s.speedVal + 100 * i.dt) 0 mx)
      = i.dt * 4 * (clampQ (s.speedVal + 100 * i.dt) 0 mx / mx)
    ∧ steeringB mx 0 = 0
    ∧ steeringB mx v1 ≤ steeringB mx v2
    ∧ carMinXB W H ≤ (updateB W H mx t j).carX
    ∧ (updateB W H mx t j).carX ≤ carMaxXB W H := by
  obtain ⟨c, hc⟩ := updateB_carX_clamped W H mx t j ht
  refine ⟨?_, ?_, ?_, ?_, ?_⟩
  · by_cases hz : clampQ (s.speedVal + 100 * i.dt) 0 mx / mx = 0
    · have hv0 : clampQ (s.speedVal + 100 * i.dt) 0 mx = 0 := by
        rcases div_eq_zero_iff.mp hz with h | h
        · exact h
        · exact absurd h (ne_of_gt hmx)
      have hx : 0 ≤ s.speedVal + 100 * i.dt := by linarith
      have hmin : 0 ≤ min mx (s.speedVal + 100 * i.dt) := le_min (le_of_lt hmx) hx
      have h2 : min mx (s.speedVal + 100 * i.dt) = 0 := by
        have h1 : clampQ (s.speedVal + 100 * i.dt) 0 mx
            = min mx (s.speedVal + 100 * i.dt) := max_eq_right hmin
        rw [h1] at hv0
        exact hv0
      have h3 : s.speedVal + 100 * i.dt = 0 := by
        rcases le_total mx (s.speedVal + 100 * i.dt) with hcc | hcc
        · rw [min_eq_left hcc] at h2
          exact absurd h2 (ne_of_gt hmx)
        · rw [min_eq_right hcc] at h2
          exact h2
      have hdt0 : i.dt = 0 := by linarith
      simp only [steerDxA, if_pos hz, hz, hdt0]
      norm_num
    · simp only [steerDxA, if_neg hz]
  · simp [steeringB]
  · unfold steeringB
    have hd : v1 / mx ≤ v2 / mx := by gcongr
    nlinarith
  · rw [hc]
    exact (clampQ_mem c (carMinXB W H) (carMaxXB W H) hWH).1
  · rw [hc]
    exact (clampQ_mem c (carMinXB W H) (carMaxXB W H) hWH).2

def iW5A : InputA := ⟨1/60, true, false, 0, 0⟩

def jW5B : InputB := ⟨1/60, false, true, 0, 0, 0⟩

/-- C5 (witness): the steering theorem at the concrete canvas 320×480,
`maxSpeed = 220`, the initial states, and a 1/60 s steer tick. -/
theorem steering_speed_scaled_witness :
    steerDxA 220 iW5A.dt (clampQ (initA.speedVal + 100 * iW5A.dt) 0 220)
      = iW5A.dt * 4 * (clampQ (initA.speedVal + 100 * iW5A.dt) 0 220 / 220)
    ∧ steeringB 220 0 = 0
    ∧ steeringB 220 0 ≤ steeringB 220 100
    ∧ carMinXB 320 480 ≤ (updateB 320 480 220 (initB 320) jW5B).carX
    ∧ (updateB 320 480 220 (initB 320) jW5B).carX ≤ carMaxXB 320 480 :=
  steering_speed_scaled 220 320 480 0 100 initA iW5A (initB 320) jW5B
    (by norm_num) (by norm_num [initA]) (by norm_num [iW5A])
    (by norm_num) rfl
    (by norm_num [carMinXB, carMaxXB, halfWCarB, lerpQ, clampQ, max_def, min_def])

/-! ### Spawn placement of variant B -/

/-- C7 (amended): in the lane-space variant every spawned obstacle starts
with its bottom edge exactly 20 px above the road horizon
(`y + size = 0.38·H - 20`), which is strictly above the car's row `0.7·H`;
and no obstacle whose bottom edge is above the car's row can collide — the
AABB test is false regardless of the lateral positions. -/
theorem spawnB_above_horizon_not_collidable
    (W H cx cw ch lane zy zsize r1 r2 r3 : ℚ)
    (hH : 0 ≤ H) (hband : zy + zsize < H * (7/10)) :
    (spawnZombieB H r1 r2 r3).y + (spawnZombieB H r1 r2 r3).size = H * (38/100) - 20
    ∧ H * (38/100) - 20 < H * (7/10)
    ∧ rectanglesOverlap cx (H * (7/10)) cw ch
        (zombieScreenX W H lane zy zsize) zy zsize zsize = false := by
  refine ⟨?_, ?_, ?_⟩
  · simp only [spawnZombieB]
    ring
  · linarith
  · simp [rectanglesOverlap, hband]

/-- C7 (witness): the spawn-placement theorem at canvas height 480 with a
zombie of size 30 sitting at `y = 0` (above the car's row at 336). -/
theorem spawnB_above_horizon_not_collidable_witness :
    (spawnZombieB 480 0 0 0).y + (spawnZombieB 480 0 0 0).size = 480 * (38/100) - 20
    ∧ (480 : ℚ) * (38/100) - 20 < 480 * (7/10)
    ∧ rectanglesOverlap 100 (480 * (7/10)) 38 53
        (zombieScreenX 320 480 0 0 30) 0 30 30 = false :=
  spawnB_above_horizon_not_collidable 320 480 100 38 53 0 0 30 0 0 0
    (by norm_num) (by norm_num)
